import Mathlib

set_option maxRecDepth 100000

/-!
# Verification of the Password-Generator service (src/main.py)

The service derives a password from a phrase and the current epoch time:
it hashes the UTF-8 bytes of `phrase ++ str(t)` with SHA-256, renders the
digest as 64 lowercase hex characters, and returns the first `length`
characters.  Two HTTP bindings expose the derivation: a GET handler whose
`length` query parameter is range-validated declaratively by the framework
(FastAPI `Query(..., ge=1, le=64)`), and a POST handler that checks the
range explicitly.  This file embeds the derivation and both handlers and
proves the specified properties.

SHA-256 is embedded in full (FIPS 180-4) over `Nat` with explicit
reduction modulo 2^32, so concrete digests can be evaluated by the kernel
and checked against independent implementations.
-/

namespace PasswordGen

/-! ## 32-bit word arithmetic over Nat -/

/-- Reduce to a 32-bit word. -/
def w32 (n : Nat) : Nat := n % 4294967296

/-- Right rotation of a 32-bit word by `n` bits. -/
def rotr (n x : Nat) : Nat := w32 ((x >>> n) ||| (x <<< (32 - n)))

/-- SHA-256 `Ch` function: `(x ∧ y) ⊕ (¬x ∧ z)` on 32-bit words. -/
def ch (x y z : Nat) : Nat := (x &&& y) ^^^ ((x ^^^ 4294967295) &&& z)

/-- SHA-256 `Maj` function. -/
def maj (x y z : Nat) : Nat := (x &&& y) ^^^ (x &&& z) ^^^ (y &&& z)

/-- SHA-256 Σ₀. -/
def bigSigma0 (x : Nat) : Nat := rotr 2 x ^^^ rotr 13 x ^^^ rotr 22 x

/-- SHA-256 Σ₁. -/
def bigSigma1 (x : Nat) : Nat := rotr 6 x ^^^ rotr 11 x ^^^ rotr 25 x

/-- SHA-256 σ₀. -/
def smallSigma0 (x : Nat) : Nat := rotr 7 x ^^^ rotr 18 x ^^^ (x >>> 3)

/-- SHA-256 σ₁. -/
def smallSigma1 (x : Nat) : Nat := rotr 17 x ^^^ rotr 19 x ^^^ (x >>> 10)

/-- The 64 SHA-256 round constants (FIPS 180-4 §4.2.2), in decimal. -/
def K : List Nat :=
  [1116352408, 1899447441, 3049323471, 3921009573,
   961987163, 1508970993, 2453635748, 2870763221,
   3624381080, 310598401, 607225278, 1426881987,
   1925078388, 2162078206, 2614888103, 3248222580,
   3835390401, 4022224774, 264347078, 604807628,
   770255983, 1249150122, 1555081692, 1996064986,
   2554220882, 2821834349, 2952996808, 3210313671,
   3336571891, 3584528711, 113926993, 338241895,
   666307205, 773529912, 1294757372, 1396182291,
   1695183700, 1986661051, 2177026350, 2456956037,
   2730485921, 2820302411, 3259730800, 3345764771,
   3516065817, 3600352804, 4094571909, 275423344,
   430227734, 506948616, 659060556, 883997877,
   958139571, 1322822218, 1537002063, 1747873779,
   1955562222, 2024104815, 2227730452, 2361852424,
   2428436474, 2756734187, 3204031479, 3329325298]

/-- The eight working variables of the SHA-256 compression function. -/
structure H8 where
  a : Nat
  b : Nat
  c : Nat
  d : Nat
  e : Nat
  f : Nat
  g : Nat
  h : Nat
deriving DecidableEq

/-- SHA-256 initial hash value (FIPS 180-4 §5.3.3), in decimal. -/
def initH : H8 :=
  ⟨1779033703, 3144134277, 1013904242, 2773480762,
   1359893119, 2600822924, 528734635, 1541459225⟩

/-- Extend the 16 message-schedule words to 64; `rws` holds the schedule so
far in reverse (most recent word first). -/
def scheduleAux : Nat → List Nat → List Nat
  | 0, rws => rws.reverse
  | n + 1, rws =>
      let wt := w32 (smallSigma1 (rws.getD 1 0) + rws.getD 6 0 +
                     smallSigma0 (rws.getD 14 0) + rws.getD 15 0)
      scheduleAux n (wt :: rws)

/-- The 64-word message schedule of a 16-word block. -/
def schedule (block : List Nat) : List Nat := scheduleAux 48 block.reverse

/-- One SHA-256 round with round constant `k` and schedule word `w`. -/
def round (s : H8) (k w : Nat) : H8 :=
  let t1 := w32 (s.h + bigSigma1 s.e + ch s.e s.f s.g + k + w)
  let t2 := w32 (bigSigma0 s.a + maj s.a s.b s.c)
  ⟨w32 (t1 + t2), s.a, s.b, s.c, w32 (s.d + t1), s.e, s.f, s.g⟩

/-- Run the 64 rounds over the paired round constants and schedule words. -/
def rounds : List Nat → List Nat → H8 → H8
  | k :: ks, w :: ws, s => rounds ks ws (round s k w)
  | _, _, s => s

/-- Compress one 16-word block into the running hash value. -/
def compress (hv : H8) (block : List Nat) : H8 :=
  let s := rounds K (schedule block) hv
  ⟨w32 (hv.a + s.a), w32 (hv.b + s.b), w32 (hv.c + s.c), w32 (hv.d + s.d),
   w32 (hv.e + s.e), w32 (hv.f + s.f), w32 (hv.g + s.g), w32 (hv.h + s.h)⟩

/-- Big-endian bytes of `v`, exactly `n` bytes. -/
def natToBytesBE : Nat → Nat → List Nat
  | 0, _ => []
  | n + 1, v => natToBytesBE n (v / 256) ++ [v % 256]

/-- SHA-256 padding: append `0x80`, zeros to 56 mod 64, then the bit length
as 8 big-endian bytes. -/
def padBytes (msg : List Nat) : List Nat :=
  let l := msg.length
  msg ++ 128 :: List.replicate ((119 - l % 64) % 64) 0 ++ natToBytesBE 8 (8 * l)

/-- Group bytes into big-endian 32-bit words (input length a multiple of 4). -/
def bytesToWords : List Nat → List Nat
  | b0 :: b1 :: b2 :: b3 :: rest =>
      (((b0 * 256 + b1) * 256 + b2) * 256 + b3) :: bytesToWords rest
  | _ => []

/-- Group words into 16-word blocks (input length a multiple of 16). -/
def wordsToBlocks : List Nat → List (List Nat)
  | w0 :: w1 :: w2 :: w3 :: w4 :: w5 :: w6 :: w7 ::
    w8 :: w9 :: w10 :: w11 :: w12 :: w13 :: w14 :: w15 :: rest =>
      [w0, w1, w2, w3, w4, w5, w6, w7, w8, w9, w10, w11, w12, w13, w14, w15] ::
        wordsToBlocks rest
  | _ => []

/-- Fold the compression function over all blocks. -/
def foldBlocks : H8 → List (List Nat) → H8
  | hv, [] => hv
  | hv, b :: bs => foldBlocks (compress hv b) bs

/-- The lowercase hex alphabet. -/
def hexDigits : List Char := "0123456789abcdef".toList

/-- The hex character of `n % 16`. -/
def hexDigit (n : Nat) : Char := hexDigits.getD (n % 16) '0'

/-- A 32-bit word as 8 lowercase hex characters, most significant first. -/
def toHex8 (w : Nat) : List Char :=
  [hexDigit (w / 268435456), hexDigit (w / 16777216), hexDigit (w / 1048576),
   hexDigit (w / 65536), hexDigit (w / 4096), hexDigit (w / 256),
   hexDigit (w / 16), hexDigit w]

/-- SHA-256 of a byte list, rendered as 64 lowercase hex characters
(Python's `sha256(bytes).hexdigest()`). -/
def sha256hex (msg : List Nat) : List Char :=
  let hv := foldBlocks initH (wordsToBlocks (bytesToWords (padBytes msg)))
  toHex8 hv.a ++ toHex8 hv.b ++ toHex8 hv.c ++ toHex8 hv.d ++
  toHex8 hv.e ++ toHex8 hv.f ++ toHex8 hv.g ++ toHex8 hv.h

/-! ## UTF-8 encoding and decimal rendering (Python `str.encode('utf-8')`, `str(int)`) -/

/-- UTF-8 bytes of one Unicode scalar value. -/
def utf8EncodeChar (c : Char) : List Nat :=
  let n := c.toNat
  if n < 128 then [n]
  else if n < 2048 then [192 + n / 64, 128 + n % 64]
  else if n < 65536 then [224 + n / 4096, 128 + n / 64 % 64, 128 + n % 64]
  else [240 + n / 262144, 128 + n / 4096 % 64, 128 + n / 64 % 64, 128 + n % 64]

/-- UTF-8 bytes of a string (Python `s.encode('utf-8')`). -/
def strBytes (s : String) : List Nat := (s.toList.map utf8EncodeChar).flatten

/-- Decimal digits of `n`, fuel-driven so it reduces in the kernel. -/
def natDigits : Nat → Nat → List Char
  | 0, _ => []
  | fuel + 1, n =>
      if n < 10 then [hexDigit n]
      else natDigits fuel (n / 10) ++ [hexDigit (n % 10)]

/-- Decimal string of a natural number (Python `str(epoch_time)`). -/
def decRepr (n : Nat) : String := ⟨natDigits (n + 1) n⟩

/-! ## The service (src/main.py)

`PasswordResponse` mirrors the pydantic response model; errors carry the
HTTP status and the JSON `detail`.  FastAPI's declarative validation of the
GET query parameter (`Query(..., ge=1, le=64)`) rejects an out-of-range
`length` before the handler runs, with status 422 and a structured
pydantic validation message; an in-handler `raise HTTPException(s, d)`
produces status `s` with the plain string detail `d`.  The two detail
shapes are kept distinct.

In both handlers the defensive `HTTPException(400, ...)` for
`length > len(hash_digest)` is raised *inside* the `try:` block and
`HTTPException` is a subclass of `Exception`, so the
`except Exception as e:` clause catches it and re-raises
`HTTPException(500, f"Error generating password: {str(e)}")`, where
`str(e)` of a starlette `HTTPException` is `f"{status_code}: {detail}"`.
The embedding reproduces this wrapping faithfully. -/

/-- The pydantic `PasswordResponse` model. -/
structure PasswordResponse where
  password : String
  timestamp : Nat
  length : Nat
deriving DecidableEq

/-- The JSON `detail` of an error response: a structured pydantic
validation message (declarative `Query` validation) or the plain string of
an in-handler `HTTPException`. -/
inductive ErrorDetail where
  | validationMsg (msg : String)
  | text (msg : String)
deriving DecidableEq

/-- An HTTP error response: status code and detail. -/
structure HttpError where
  status : Nat
  detail : ErrorDetail
deriving DecidableEq

/-- The default phrase, the pydantic/Query default literal. -/
def defaultPhrase : String := "The Tomb of Saint Nicholas"

/-- String rendering of an in-handler error, starlette's
`HTTPException.__str__`: `f"{self.status_code}: {self.detail}"`. -/
def errorStr (e : HttpError) : String :=
  decRepr e.status ++ ": " ++
    match e.detail with
    | .validationMsg m => m
    | .text m => m

/-- The `try:` block shared by both handlers (src/main.py lines 37-55 and
74-91): capture `t`, hash `phrase + str(t)`, defensively check `length`
against the digest length, slice the first `length` characters. -/
def tryBlock (length : Nat) (phrase : String) (t : Nat) :
    Except HttpError PasswordResponse :=
  let input_string := phrase ++ decRepr t
  let hash_digest := sha256hex (strBytes input_string)
  if length > hash_digest.length then
    .error ⟨400, .text ("Requested length (" ++ decRepr length ++
      ") exceeds maximum hash length (" ++ decRepr hash_digest.length ++ ")")⟩
  else
    .ok ⟨⟨hash_digest.take length⟩, t, length⟩

/-- The `except Exception` clause (src/main.py lines 57-58 and 93-94): any
exception from the `try:` block — including the defensive
`HTTPException(400, ...)`, which subclasses `Exception` — is re-raised as
a 500 wrapping `str(e)`. -/
def exceptWrap (r : Except HttpError PasswordResponse) :
    Except HttpError PasswordResponse :=
  match r with
  | .error e => .error ⟨500, .text ("Error generating password: " ++ errorStr e)⟩
  | .ok v => .ok v

/-- The body of the GET handler `generate_password` (src/main.py lines
37-58): the `try:` block under the `except Exception` wrapper. -/
def generate_password_body (length : Nat) (phrase : String) (t : Nat) :
    Except HttpError PasswordResponse :=
  exceptWrap (tryBlock length phrase t)

/-- The GET binding `GET /generate` (src/main.py lines 26-58).  `length` is
declared `Query(..., ge=1, le=64)`, so FastAPI rejects an out-of-range
value with a 422 validation error before the handler runs; `phrase`
defaults to the configured literal when omitted. -/
def generate_password (length : Int) (phrase : Option String) (t : Nat) :
    Except HttpError PasswordResponse :=
  if length < 1 then
    .error ⟨422, .validationMsg "ensure this value is greater than or equal to 1"⟩
  else if length > 64 then
    .error ⟨422, .validationMsg "ensure this value is less than or equal to 64"⟩
  else
    generate_password_body length.toNat (phrase.getD defaultPhrase) t

/-- The body of the POST handler after its explicit range check
(src/main.py lines 74-94): the `try:` block under the `except Exception`
wrapper.  Textually duplicated from the GET handler in the source. -/
def generate_password_post_body (length : Nat) (phrase : String) (t : Nat) :
    Except HttpError PasswordResponse :=
  exceptWrap (tryBlock length phrase t)

/-- The POST binding `POST /generate` (src/main.py lines 60-94).  The JSON
body is parsed into `PasswordRequest` (pydantic applies the default
phrase); the handler checks the range explicitly and raises
`HTTPException(400, ...)` itself. -/
def generate_password_post (length : Int) (phrase : Option String) (t : Nat) :
    Except HttpError PasswordResponse :=
  let phrase' := phrase.getD defaultPhrase
  if length < 1 ∨ length > 64 then
    .error ⟨400, .text "Length must be between 1 and 64 characters"⟩
  else
    generate_password_post_body length.toNat phrase' t

/-! ## Supporting lemmas -/

/-- Decidable "is a lowercase hex character". -/
def isHexChar (c : Char) : Bool := c ∈ hexDigits

/-- `hexDigit` always yields a lowercase hex character. -/
theorem hexDigit_mem (n : Nat) : hexDigit n ∈ hexDigits := by
  have h : n % 16 < hexDigits.length := by
    have h16 : hexDigits.length = 16 := by rfl
    omega
  rw [hexDigit, List.getD_eq_getElem _ _ h]
  exact List.getElem_mem h

/-- Every character of `toHex8 w` is a lowercase hex character. -/
theorem toHex8_mem (w : Nat) : ∀ c ∈ toHex8 w, c ∈ hexDigits := by
  intro c hc
  simp only [toHex8, List.mem_cons, List.not_mem_nil, or_false] at hc
  rcases hc with h | h | h | h | h | h | h | h <;> exact h ▸ hexDigit_mem _

/-- `toHex8` always has 8 characters. -/
theorem toHex8_length (w : Nat) : (toHex8 w).length = 8 := by
  simp [toHex8]

/-- The rendered digest always has exactly 64 characters. -/
theorem sha256hex_length (msg : List Nat) : (sha256hex msg).length = 64 := by
  simp [sha256hex, toHex8_length]

/-- Every character of the rendered digest is a lowercase hex character. -/
theorem sha256hex_mem (msg : List Nat) : ∀ c ∈ sha256hex msg, c ∈ hexDigits := by
  intro c hc
  simp only [sha256hex, List.mem_append] at hc
  rcases hc with ((((((h | h) | h) | h) | h) | h) | h) | h <;> exact toHex8_mem _ _ h

/-- When `length ≤ 64` the defensive branch of the `try:` block is not
taken and the block returns the truncated digest. -/
theorem tryBlock_ok (length : Nat) (phrase : String) (t : Nat) (h : length ≤ 64) :
    tryBlock length phrase t =
      .ok ⟨⟨(sha256hex (strBytes (phrase ++ decRepr t))).take length⟩, t, length⟩ := by
  simp only [tryBlock, sha256hex_length]
  rw [if_neg (by omega)]

/-- The GET handler body on an in-range length. -/
theorem generate_password_body_ok (length : Nat) (phrase : String) (t : Nat)
    (h : length ≤ 64) :
    generate_password_body length phrase t =
      .ok ⟨⟨(sha256hex (strBytes (phrase ++ decRepr t))).take length⟩, t, length⟩ := by
  rw [generate_password_body, tryBlock_ok length phrase t h]; rfl

/-- The POST handler body on an in-range length. -/
theorem generate_password_post_body_ok (length : Nat) (phrase : String) (t : Nat)
    (h : length ≤ 64) :
    generate_password_post_body length phrase t =
      .ok ⟨⟨(sha256hex (strBytes (phrase ++ decRepr t))).take length⟩, t, length⟩ := by
  rw [generate_password_post_body, tryBlock_ok length phrase t h]; rfl

/-- The GET binding on an in-range length. -/
theorem generate_password_ok (length : Nat) (phrase : Option String) (t : Nat)
    (h1 : 1 ≤ length) (h2 : length ≤ 64) :
    generate_password (length : Int) phrase t =
      .ok ⟨⟨(sha256hex (strBytes ((phrase.getD defaultPhrase) ++ decRepr t))).take length⟩,
           t, length⟩ := by
  rw [generate_password, if_neg (by omega), if_neg (by omega)]
  rw [show ((length : Int)).toNat = length from Int.toNat_natCast length]
  exact generate_password_body_ok length _ t h2

/-- The POST binding on an in-range length. -/
theorem generate_password_post_ok (length : Nat) (phrase : Option String) (t : Nat)
    (h1 : 1 ≤ length) (h2 : length ≤ 64) :
    generate_password_post (length : Int) phrase t =
      .ok ⟨⟨(sha256hex (strBytes ((phrase.getD defaultPhrase) ++ decRepr t))).take length⟩,
           t, length⟩ := by
  rw [generate_password_post, if_neg (by omega)]
  rw [show ((length : Int)).toNat = length from Int.toNat_natCast length]
  exact generate_password_post_body_ok length _ t h2

/-! ## The claims -/

/-- C2: For every length in [1,64] and every phrase, a successful
derivation returns a result whose `password` is a string of exactly
`length` characters drawn only from lowercase hex characters `[0-9a-f]`,
whose `length` field equals the request's length, and whose `timestamp`
field equals the captured epoch-seconds value `t` used in the
derivation. -/
theorem claim_C2_result_shape (length : Nat) (phrase : Option String) (t : Nat)
    (h1 : 1 ≤ length) (h2 : length ≤ 64) :
    ∃ r, generate_password (length : Int) phrase t = .ok r ∧
      r.password.length = length ∧
      (∀ c ∈ r.password.toList, isHexChar c = true) ∧
      r.length = length ∧ r.timestamp = t := by
  refine ⟨_, generate_password_ok length phrase t h1 h2, ?_, ?_, rfl, rfl⟩
  · show (List.take length _).length = length
    rw [List.length_take, sha256hex_length]
    omega
  · intro c hc
    exact decide_eq_true (sha256hex_mem _ c (List.take_subset length _ hc))

/-- Witness for C2 at length 16, phrase `"test"`, `t = 1700000000`. -/
theorem claim_C2_result_shape_witness :
    ∃ r, generate_password ((16 : Nat) : Int) (some "test") 1700000000 = .ok r ∧
      r.password.length = 16 ∧
      (∀ c ∈ r.password.toList, isHexChar c = true) ∧
      r.length = 16 ∧ r.timestamp = 1700000000 :=
  claim_C2_result_shape 16 (some "test") 1700000000 (by decide) (by decide)

/-- C3: The derivation is deterministic in `(phrase, t)`: for a fixed
phrase and fixed length, two calls that observe the same clock second `t`
return identical `password` and identical `timestamp` values. -/
theorem claim_C3_determinism (length : Int) (phrase : Option String) (t : Nat)
    (r1 r2 : PasswordResponse)
    (h1 : generate_password length phrase t = .ok r1)
    (h2 : generate_password length phrase t = .ok r2) :
    r1.password = r2.password ∧ r1.timestamp = r2.timestamp := by
  rw [h1] at h2
  injection h2 with h
  exact ⟨congrArg PasswordResponse.password h, congrArg PasswordResponse.timestamp h⟩

/-- Witness for C3: two calls at length 8, phrase `"test"`,
`t = 1700000000` agree (both yield the digest prefix `"253f6479"`). -/
theorem claim_C3_determinism_witness :
    (PasswordResponse.mk "253f6479" 1700000000 8).password =
      (PasswordResponse.mk "253f6479" 1700000000 8).password ∧
    (PasswordResponse.mk "253f6479" 1700000000 8).timestamp =
      (PasswordResponse.mk "253f6479" 1700000000 8).timestamp :=
  claim_C3_determinism 8 (some "test") 1700000000 _ _ (by rfl) (by rfl)

/-- C4: The GET and POST bindings are logically identical on the success
path: for every length in [1,64], every phrase (including the case where
phrase is omitted and the default applies), and the same clock value `t`,
the GET handler and the POST handler return equal responses. -/
theorem claim_C4_get_post_equivalent (length : Nat) (phrase : Option String) (t : Nat)
    (h1 : 1 ≤ length) (h2 : length ≤ 64) :
    generate_password (length : Int) phrase t =
      generate_password_post (length : Int) phrase t := by
  rw [generate_password_ok length phrase t h1 h2,
      generate_password_post_ok length phrase t h1 h2]

/-- Witness for C4 at length 8, omitted phrase, `t = 5`. -/
theorem claim_C4_get_post_equivalent_witness :
    generate_password ((8 : Nat) : Int) none 5 =
      generate_password_post ((8 : Nat) : Int) none 5 :=
  claim_C4_get_post_equivalent 8 none 5 (by decide) (by decide)

/-- C5: For length outside [1,64], both bindings reject the request with a
client input error (4xx) before any hashing occurs — the rejection is the
same whatever the phrase and whatever the clock reads, which is how
"before hashing" is observable; the boundary values length = 1 and
length = 64 succeed. -/
theorem claim_C5_range_validation (len : Int) (phrase phrase' : Option String) (t t' : Nat) :
    (len < 1 ∨ 64 < len →
      (∃ e, generate_password len phrase t = .error e ∧
        400 ≤ e.status ∧ e.status < 500 ∧
        generate_password len phrase' t' = .error e) ∧
      (∃ e, generate_password_post len phrase t = .error e ∧
        400 ≤ e.status ∧ e.status < 500 ∧
        generate_password_post len phrase' t' = .error e)) ∧
    ((len = 1 ∨ len = 64) →
      (∃ r, generate_password len phrase t = .ok r) ∧
      (∃ r, generate_password_post len phrase t = .ok r)) := by
  constructor
  · intro h
    constructor
    · rcases h with h | h
      · exact ⟨_, by rw [generate_password, if_pos h], by decide, by decide,
              by rw [generate_password, if_pos h]⟩
      · exact ⟨_, by rw [generate_password, if_neg (by omega), if_pos h], by decide, by decide,
              by rw [generate_password, if_neg (by omega), if_pos h]⟩
    · refine ⟨⟨400, .text "Length must be between 1 and 64 characters"⟩,
        ?_, by decide, by decide, ?_⟩ <;>
        (simp only [generate_password_post]; rw [if_pos (by omega)])
  · rintro (rfl | rfl) <;>
      exact ⟨⟨_, by rw [generate_password, if_neg (by omega), if_neg (by omega)]
                    exact generate_password_body_ok _ _ t (by decide)⟩,
             ⟨_, by simp only [generate_password_post]
                    rw [if_neg (by omega)]
                    exact generate_password_post_body_ok _ _ t (by decide)⟩⟩

/-- Witness for C5: length 0 is rejected by both bindings with a 4xx error
independent of phrase and clock, and length 64 succeeds on both. -/
theorem claim_C5_range_validation_witness :
    ((∃ e, generate_password 0 (some "x") 5 = .error e ∧
        400 ≤ e.status ∧ e.status < 500 ∧
        generate_password 0 none 6 = .error e) ∧
     (∃ e, generate_password_post 0 (some "x") 5 = .error e ∧
        400 ≤ e.status ∧ e.status < 500 ∧
        generate_password_post 0 none 6 = .error e)) ∧
    ((∃ r, generate_password 64 (some "x") 5 = .ok r) ∧
     (∃ r, generate_password_post 64 (some "x") 5 = .ok r)) :=
  ⟨(claim_C5_range_validation 0 (some "x") none 5 6).1 (Or.inl (by omega)),
   (claim_C5_range_validation 64 (some "x") none 5 6).2 (Or.inr rfl)⟩

/-- C6 counterexample: at length 0 the two bindings do NOT produce the
same observable rejection — the GET binding's declarative validation
rejects with status 422 and a structured validation detail, while the POST
binding's explicit check rejects with status 400 and a plain string
detail. -/
theorem claim_C6_counterexample :
    generate_password 0 (some "test") 1700000000 =
      .error ⟨422, .validationMsg "ensure this value is greater than or equal to 1"⟩ ∧
    generate_password_post 0 (some "test") 1700000000 =
      .error ⟨400, .text "Length must be between 1 and 64 characters"⟩ ∧
    (⟨422, .validationMsg "ensure this value is greater than or equal to 1"⟩ : HttpError) ≠
      ⟨400, .text "Length must be between 1 and 64 characters"⟩ := by
  refine ⟨by rw [generate_password, if_pos (by omega)], ?_, by decide⟩
  simp only [generate_password_post]
  rw [if_pos (by omega)]

/-- C6 amended: for the same out-of-range length both bindings reject with
a 4xx-class client input error, but the rejections differ — the GET
binding (declarative range validation before the handler) yields status
422 with a structured validation detail, while the POST binding (explicit
range check inside the handler) yields status 400 with a plain string
detail. -/
theorem claim_C6_amended_both_reject_but_differ (len : Int) (phrase : Option String)
    (t : Nat) (h : len < 1 ∨ 64 < len) :
    ∃ e e', generate_password len phrase t = .error e ∧
      generate_password_post len phrase t = .error e' ∧
      400 ≤ e.status ∧ e.status < 500 ∧ 400 ≤ e'.status ∧ e'.status < 500 ∧
      e.status = 422 ∧ e'.status = 400 ∧
      (∃ m, e.detail = .validationMsg m) ∧ (∃ m, e'.detail = .text m) := by
  have hpost : generate_password_post len phrase t =
      .error ⟨400, .text "Length must be between 1 and 64 characters"⟩ := by
    simp only [generate_password_post]
    rw [if_pos (by omega)]
  rcases h with h | h
  · exact ⟨_, _, by rw [generate_password, if_pos h], hpost, by decide, by decide,
      by decide, by decide, rfl, rfl, ⟨_, rfl⟩, ⟨_, rfl⟩⟩
  · exact ⟨_, _, by rw [generate_password, if_neg (by omega), if_pos h], hpost,
      by decide, by decide, by decide, by decide, rfl, rfl, ⟨_, rfl⟩, ⟨_, rfl⟩⟩

/-- Witness for the amended C6 at length 65. -/
theorem claim_C6_amended_witness :
    ∃ e e', generate_password 65 (some "test") 1700000000 = .error e ∧
      generate_password_post 65 (some "test") 1700000000 = .error e' ∧
      400 ≤ e.status ∧ e.status < 500 ∧ 400 ≤ e'.status ∧ e'.status < 500 ∧
      e.status = 422 ∧ e'.status = 400 ∧
      (∃ m, e.detail = .validationMsg m) ∧ (∃ m, e'.detail = .text m) :=
  claim_C6_amended_both_reject_but_differ 65 (some "test") 1700000000 (Or.inr (by omega))

/-- C7, code behavior at the failing input: when length 65 reaches the
handler body (boundary validation bypassed), the defensive
`HTTPException(400, ...)` raised inside the `try:` block is caught by
`except Exception` — `HTTPException` subclasses `Exception` — and the
caller observes a 5xx-class error (status 500 with the generic wrapper
around `str(e)`), not the specified 4xx-class rejection.  Both handler
bodies behave identically. -/
theorem claim_C7_defensive_error_is_masked_to_500 :
    generate_password_body 65 "test" 1700000000 =
      .error ⟨500, .text
        "Error generating password: 400: Requested length (65) exceeds maximum hash length (64)"⟩ ∧
    generate_password_post_body 65 "test" 1700000000 =
      .error ⟨500, .text
        "Error generating password: 400: Requested length (65) exceeds maximum hash length (64)"⟩ := by
  exact ⟨by rfl, by rfl⟩

/-- C8: For every length in [1,64], the `LengthExceedsDigest` defensive
branch is never taken: the digest always has exactly 64 characters, so
the guard `length > len(hash_digest)` is false under the boundary
precondition, and both handler bodies — each of which contains the check —
return the truncated digest successfully. -/
theorem claim_C8_defensive_branch_unreachable (length : Nat) (phrase : String) (t : Nat)
    (h1 : 1 ≤ length) (h2 : length ≤ 64) :
    ¬ (length > (sha256hex (strBytes (phrase ++ decRepr t))).length) ∧
    generate_password_body length phrase t =
      .ok ⟨⟨(sha256hex (strBytes (phrase ++ decRepr t))).take length⟩, t, length⟩ ∧
    generate_password_post_body length phrase t =
      .ok ⟨⟨(sha256hex (strBytes (phrase ++ decRepr t))).take length⟩, t, length⟩ := by
  refine ⟨?_, generate_password_body_ok length phrase t h2,
    generate_password_post_body_ok length phrase t h2⟩
  rw [sha256hex_length]
  omega

/-- Witness for C8 at length 64, phrase `"x"`, `t = 7`. -/
theorem claim_C8_defensive_branch_unreachable_witness :
    ¬ (64 > (sha256hex (strBytes ("x" ++ decRepr 7))).length) ∧
    generate_password_body 64 "x" 7 =
      .ok ⟨⟨(sha256hex (strBytes ("x" ++ decRepr 7))).take 64⟩, 7, 64⟩ ∧
    generate_password_post_body 64 "x" 7 =
      .ok ⟨⟨(sha256hex (strBytes ("x" ++ decRepr 7))).take 64⟩, 7, 64⟩ :=
  claim_C8_defensive_branch_unreachable 64 "x" 7 (by decide) (by decide)

/-- C1: For phrase `"test"` and a clock returning epoch time 1700000000,
and any length in [1,64], the derivation returns as password the lowercase
hex-encoded SHA-256 digest of the UTF-8 bytes of the string
`"test1700000000"` — checked against an independently computed digest —
truncated to the first `length` characters. -/
theorem claim_C1_test_vector (length : Nat) (h1 : 1 ≤ length) (h2 : length ≤ 64) :
    sha256hex (strBytes "test1700000000") =
      "253f647956f2dfaee8a7a94c8c84f3060319e08be928f1a55965b89df01d7af7".toList ∧
    generate_password (length : Int) (some "test") 1700000000 =
      .ok ⟨⟨"253f647956f2dfaee8a7a94c8c84f3060319e08be928f1a55965b89df01d7af7".toList.take length⟩,
           1700000000, length⟩ := by
  have hdig : sha256hex (strBytes ((some "test").getD defaultPhrase ++ decRepr 1700000000)) =
      "253f647956f2dfaee8a7a94c8c84f3060319e08be928f1a55965b89df01d7af7".toList := by rfl
  refine ⟨hdig, ?_⟩
  rw [generate_password_ok length (some "test") 1700000000 h1 h2, hdig]

/-- Witness for C1 at length 16. -/
theorem claim_C1_test_vector_witness :
    sha256hex (strBytes "test1700000000") =
      "253f647956f2dfaee8a7a94c8c84f3060319e08be928f1a55965b89df01d7af7".toList ∧
    generate_password ((16 : Nat) : Int) (some "test") 1700000000 =
      .ok ⟨⟨"253f647956f2dfaee8a7a94c8c84f3060319e08be928f1a55965b89df01d7af7".toList.take 16⟩,
           1700000000, 16⟩ :=
  claim_C1_test_vector 16 (by decide) (by decide)

/-- C9 counterexample: the passwords derived from the default phrase and
from the empty-string phrase do NOT differ at every timestamp — at
`t = 1700000013` and length 1 both digests happen to begin with `'0'`, so
the two passwords coincide. -/
theorem claim_C9_counterexample :
    generate_password 1 none 1700000013 =
      .ok ⟨"0", 1700000013, 1⟩ ∧
    generate_password 1 (some "") 1700000013 =
      .ok ⟨"0", 1700000013, 1⟩ := by
  exact ⟨by rfl, by rfl⟩

/-- C9 amended: when the caller omits the phrase the derivation uses the
documented default literal `"The Tomb of Saint Nicholas"` (omitting the
phrase is indistinguishable from passing the default), and at the
reference timestamp `t = 1700000000` the password derived from the
default phrase differs from the password derived from the empty-string
phrase at every length in [1,64] — but this can fail at other timestamps,
as short truncated digests may coincide. -/
theorem claim_C9_amended_default_phrase (length : Nat) (h1 : 1 ≤ length) (h2 : length ≤ 64) :
    generate_password (length : Int) none 1700000000 =
      generate_password (length : Int) (some defaultPhrase) 1700000000 ∧
    ∀ r1 r2, generate_password (length : Int) none 1700000000 = .ok r1 →
      generate_password (length : Int) (some "") 1700000000 = .ok r2 →
      r1.password ≠ r2.password := by
  constructor
  · rw [generate_password_ok length none 1700000000 h1 h2,
        generate_password_ok length (some defaultPhrase) 1700000000 h1 h2]
    rfl
  · intro r1 r2 e1 e2
    rw [generate_password_ok length none 1700000000 h1 h2] at e1
    rw [generate_password_ok length (some "") 1700000000 h1 h2] at e2
    injection e1 with h; subst h
    injection e2 with h; subst h
    have hd : (sha256hex (strBytes ((none : Option String).getD defaultPhrase ++
        decRepr 1700000000)))[0]? = some 'f' := by rfl
    have he : (sha256hex (strBytes ((some "").getD defaultPhrase ++
        decRepr 1700000000)))[0]? = some '3' := by rfl
    intro hpw
    have hlist := congrArg String.data hpw
    have h0 := congrArg (fun l => l[0]?) hlist
    simp only at h0
    rw [List.getElem?_take, if_pos (by omega), List.getElem?_take, if_pos (by omega),
        hd, he] at h0
    exact absurd h0 (by decide)

/-- Witness for the amended C9 at length 1. -/
theorem claim_C9_amended_default_phrase_witness :
    generate_password ((1 : Nat) : Int) none 1700000000 =
      generate_password ((1 : Nat) : Int) (some defaultPhrase) 1700000000 ∧
    ∀ r1 r2, generate_password ((1 : Nat) : Int) none 1700000000 = .ok r1 →
      generate_password ((1 : Nat) : Int) (some "") 1700000000 = .ok r2 →
      r1.password ≠ r2.password :=
  claim_C9_amended_default_phrase 1 (by decide) (by decide)

/-- C10: Prefix coherence across lengths: for a fixed phrase and fixed
clock second `t`, and any two lengths `l1 ≤ l2` both in [1,64], the
password returned for `l1` equals the first `l1` characters of the
password returned for `l2` — every password is a left prefix of the full
64-character digest. -/
theorem claim_C10_prefix_coherence (phrase : Option String) (t l1 l2 : Nat)
    (h1 : 1 ≤ l1) (hle : l1 ≤ l2) (h2 : l2 ≤ 64)
    (r1 r2 : PasswordResponse)
    (e1 : generate_password (l1 : Int) phrase t = .ok r1)
    (e2 : generate_password (l2 : Int) phrase t = .ok r2) :
    r1.password.toList = r2.password.toList.take l1 := by
  rw [generate_password_ok l1 phrase t h1 (by omega)] at e1
  rw [generate_password_ok l2 phrase t (by omega) h2] at e2
  injection e1 with h; subst h
  injection e2 with h; subst h
  show List.take l1 _ = List.take l1 (List.take l2 _)
  rw [List.take_take, min_eq_left hle]

/-- Witness for C10: the length-4 password is the first 4 characters of
the length-8 password, at phrase `"test"`, `t = 1700000000`. -/
theorem claim_C10_prefix_coherence_witness :
    (PasswordResponse.mk "253f" 1700000000 4).password.toList =
      (PasswordResponse.mk "253f6479" 1700000000 8).password.toList.take 4 :=
  claim_C10_prefix_coherence (some "test") 1700000000 4 8
    (by decide) (by decide) (by decide) _ _ (by rfl) (by rfl)

end PasswordGen
